import Mathlib

/-!
# AetherStream entry point

A shallow embedding of `main` from `src/User.cpp` and the properties of its
lifecycle orchestration: which operations of the application object are
called, what is written to `std::cout` and `std::cerr`, which `catch` clause
runs, and which exit status is returned.

The class `AetherStreamApp` is declared in `main/AetherStreamApp.h`, which is
not part of the sources, so the application object is a parameter of the
embedding: a state type together with the behaviour of its constructor and of
the three member functions `main` calls. Each of them either returns or throws.
The destructor that runs implicitly when `app` leaves the `try` block is taken
to return, as destructors are `noexcept` unless declared otherwise. The streams
record what the statements of `main` write.
-/

namespace AetherStream

/-- A value thrown out of an operation of the application object. The two
`catch` clauses of `main` tell apart values caught by
`catch (const std::exception& e)`, which carry the text of `e.what()`, and
every other value, caught by `catch (...)`. -/
inductive Thrown where
  | stdException (what : String)
  | other
  deriving DecidableEq, Repr

/-- The operations of the application object that `main` invokes:
`AetherStreamApp app;`, `app.initialize()`, `app.run()`, `app.shutdown()`. -/
inductive Call where
  | construct
  | initialize_
  | run
  | shutdown
  deriving DecidableEq, Repr

/-- The two `catch` clauses of `main`. -/
inductive Handler where
  | stdException
  | catchAll
  deriving DecidableEq, Repr

/-- The behaviour of the class `AetherStreamApp` over object states `σ`. The
class is declared in `main/AetherStreamApp.h`, which is not among the sources,
so `main` takes its behaviour as a parameter. The default constructor yields the initial object state or throws;
`initialize_`, the member function `initialize()`, yields its `bool` result
and the next state or throws; `run` and `shutdown` yield the next state or
throw. -/
structure AetherStreamApp (σ : Type) where
  construct : Except Thrown σ
  initialize_ : σ → Except Thrown (Bool × σ)
  run : σ → Except Thrown σ
  shutdown : σ → Except Thrown σ

/-- Modelled from the spec: the `<cstdlib>` macro `EXIT_SUCCESS`, whose
definition is not among the sources; the specification gives `0` on normal
completion (`Exit(0)`). -/
def EXIT_SUCCESS : Int := 0

/-- Modelled from the spec: the `<cstdlib>` macro `EXIT_FAILURE`, whose
definition is not among the sources; the specification gives the standard
non-zero failure code (`Exit(1)`). -/
def EXIT_FAILURE : Int := 1

/-- The observable state of the process while `main` runs: the text written
to `std::cout` and to `std::cerr`, the operations of the application object
invoked so far (oldest first) and the `catch` clauses entered so far. -/
structure Process where
  cout : String
  cerr : String
  calls : List Call
  handlers : List Handler
  deriving DecidableEq, Repr

/-- The process state when `main` is entered. -/
def Process.start : Process :=
  { cout := "", cerr := "", calls := [], handlers := [] }

/-- The statement `std::cout << s`. -/
def Process.out (p : Process) (s : String) : Process :=
  { p with cout := p.cout ++ s }

/-- The statement `std::cerr << s`. -/
def Process.err (p : Process) (s : String) : Process :=
  { p with cerr := p.cerr ++ s }

/-- Records that an operation of the application object is invoked. -/
def Process.call (p : Process) (c : Call) : Process :=
  { p with calls := p.calls ++ [c] }

/-- Records that a `catch` clause is entered. -/
def Process.handle (p : Process) (h : Handler) : Process :=
  { p with handlers := p.handlers ++ [h] }

/-- What `std::endl` inserts into a stream. -/
def endl : String := "\n"

/-- The first four statements of `main`: the title, the version, the build
timestamp made of `__DATE__` and `__TIME__`, and an empty line. -/
def banner (date time : String) (p : Process) : Process :=
  let p := (p.out "=== AetherStream - Application de Streaming Desktop ===").out endl
  let p := (p.out "Version: 1.0.0").out endl
  let p := ((((p.out "Compilé le: ").out date).out " ").out time).out endl
  p.out endl

/-- The body of the `try` block of `main`. The result is `.error t` when the
value `t` is thrown out of the block, `.ok (some code)` when the block
executes `return code;`, and `.ok none` when control reaches its end. -/
def tryBlock {σ : Type} (app : AetherStreamApp σ) (p : Process) :
    Process × Except Thrown (Option Int) :=
  let p := p.call .construct
  match app.construct with
  | .error t => (p, .error t)
  | .ok s0 =>
    let p := p.call .initialize_
    match app.initialize_ s0 with
    | .error t => (p, .error t)
    | .ok (false, _) =>
      ((p.err "Échec de l'initialisation de l'application.").err endl,
        .ok (some EXIT_FAILURE))
    | .ok (true, s1) =>
      let p := p.call .run
      match app.run s1 with
      | .error t => (p, .error t)
      | .ok s2 =>
        let p := p.call .shutdown
        match app.shutdown s2 with
        | .error t => (p, .error t)
        | .ok _ => (p, .ok none)

/-- The two `catch` clauses after the `try` block, applied to the thrown value:
`catch (const std::exception& e)` prints `e.what()` after a fixed prefix,
`catch (...)` prints a fixed message; both execute `return EXIT_FAILURE;`. -/
def catchClauses (t : Thrown) (p : Process) : Int × Process :=
  match t with
  | .stdException what =>
    (EXIT_FAILURE, (((p.handle .stdException).err "Erreur fatale: ").err what).err endl)
  | .other =>
    (EXIT_FAILURE, ((p.handle .catchAll).err "Erreur fatale inconnue.").err endl)

/-- The function `main` of `src/User.cpp`: the exit status it returns and the
process state it leaves. `date` and `time` are the expansions of `__DATE__`
and `__TIME__`. -/
def main {σ : Type} (app : AetherStreamApp σ) (date time : String) : Int × Process :=
  match tryBlock app (banner date time Process.start) with
  | (p, .error t) => catchClauses t p
  | (p, .ok (some code)) => (code, p)
  | (p, .ok none) =>
    (EXIT_SUCCESS,
      (p.out "=== AetherStream - Fermeture de l'application ===").out endl)

/-! ## Vocabulary of the properties -/

/-- The text of the opening banner: title line, version line, build timestamp
line and one empty line. -/
def openingBanner (date time : String) : String :=
  "=== AetherStream - Application de Streaming Desktop ===\nVersion: 1.0.0\nCompilé le: "
    ++ date ++ " " ++ time ++ "\n\n"

/-- The closing banner line, with its line terminator. -/
def closingLine : String :=
  "=== AetherStream - Fermeture de l'application ===\n"

/-- The operation `k` is reached by `main` and throws the value `t`: the
constructor throws; or it returns and `initialize()` throws; or `initialize()`
returns `true` and `run()` throws; or `run()` returns and `shutdown()`
throws. -/
def ThrowsAt {σ : Type} (app : AetherStreamApp σ) : Call → Thrown → Prop
  | .construct, t => app.construct = .error t
  | .initialize_, t => ∃ s0, app.construct = .ok s0 ∧ app.initialize_ s0 = .error t
  | .run, t => ∃ s0 s1, app.construct = .ok s0 ∧ app.initialize_ s0 = .ok (true, s1) ∧
      app.run s1 = .error t
  | .shutdown, t => ∃ s0 s1 s2, app.construct = .ok s0 ∧
      app.initialize_ s0 = .ok (true, s1) ∧ app.run s1 = .ok s2 ∧
      app.shutdown s2 = .error t

/-- The constructor returns and `initialize()` returns `false`. -/
def InitializeFails {σ : Type} (app : AetherStreamApp σ) : Prop :=
  ∃ s0 s1, app.construct = .ok s0 ∧ app.initialize_ s0 = .ok (false, s1)

/-- The constructor returns, `initialize()` returns `true`, and `run()` and
`shutdown()` both return. -/
def Completes {σ : Type} (app : AetherStreamApp σ) : Prop :=
  ∃ s0 s1 s2 s3, app.construct = .ok s0 ∧ app.initialize_ s0 = .ok (true, s1) ∧
    app.run s1 = .ok s2 ∧ app.shutdown s2 = .ok s3

/-- The operations invoked up to and including `k`, in lifecycle order. -/
def callsThrough : Call → List Call
  | .construct => [.construct]
  | .initialize_ => [.construct, .initialize_]
  | .run => [.construct, .initialize_, .run]
  | .shutdown => [.construct, .initialize_, .run, .shutdown]

/-- The line a `catch` clause writes to `std::cerr` for the thrown value. -/
def diagnostic : Thrown → String
  | .stdException what => "Erreur fatale: " ++ what ++ "\n"
  | .other => "Erreur fatale inconnue.\n"

/-- The `catch` clause that matches the thrown value. -/
def handlerFor : Thrown → Handler
  | .stdException _ => .stdException
  | .other => .catchAll

/-- A text that is exactly one line: it ends with a newline and holds no
other newline. -/
def IsOneLine (s : String) : Prop :=
  s.data.getLast? = some '\n' ∧ s.data.count '\n' = 1

instance (s : String) : Decidable (IsOneLine s) := by
  unfold IsOneLine
  infer_instance

/-- A scripted application object without state: each operation has a fixed
outcome. -/
def scripted (c : Except Thrown Unit) (i : Except Thrown Bool) (r s : Except Thrown Unit) :
    AetherStreamApp Unit :=
  { construct := c
    initialize_ := fun _ => i.map fun b => (b, ())
    run := fun _ => r
    shutdown := fun _ => s }

/-- An application object whose state counts the operations that returned. -/
def counting (initOk : Bool) : AetherStreamApp Nat :=
  { construct := .ok 0
    initialize_ := fun n => .ok (initOk, n + 1)
    run := fun n => .ok (n + 1)
    shutdown := fun n => .ok (n + 1) }

/-! ## The paths through `main` -/

theorem banner_start (date time : String) :
    banner date time Process.start =
      { cout := openingBanner date time, cerr := "", calls := [], handlers := [] } := by
  have h : (banner date time Process.start).cout = openingBanner date time := by
    apply String.ext
    simp [banner, Process.out, Process.start, endl, openingBanner, String.data_append]
  simpa [banner, Process.out, Process.start] using h

theorem main_of_throwsAt {σ : Type} (app : AetherStreamApp σ) (date time : String)
    (k : Call) (t : Thrown) (h : ThrowsAt app k t) :
    main app date time =
      (EXIT_FAILURE,
        { cout := openingBanner date time, cerr := diagnostic t,
          calls := callsThrough k, handlers := [handlerFor t] }) := by
  cases k
  · simp only [ThrowsAt] at h
    cases t <;>
      simp [main, tryBlock, h, catchClauses, Process.call, Process.handle, Process.err,
        diagnostic, callsThrough, handlerFor, banner_start, endl]
  · obtain ⟨s0, hc, hi⟩ := h
    cases t <;>
      simp [main, tryBlock, hc, hi, catchClauses, Process.call, Process.handle, Process.err,
        diagnostic, callsThrough, handlerFor, banner_start, endl]
  · obtain ⟨s0, s1, hc, hi, hr⟩ := h
    cases t <;>
      simp [main, tryBlock, hc, hi, hr, catchClauses, Process.call, Process.handle,
        Process.err, diagnostic, callsThrough, handlerFor, banner_start, endl]
  · obtain ⟨s0, s1, s2, hc, hi, hr, hs⟩ := h
    cases t <;>
      simp [main, tryBlock, hc, hi, hr, hs, catchClauses, Process.call, Process.handle,
        Process.err, diagnostic, callsThrough, handlerFor, banner_start, endl]

theorem main_of_initializeFails {σ : Type} (app : AetherStreamApp σ) (date time : String)
    (h : InitializeFails app) :
    main app date time =
      (EXIT_FAILURE,
        { cout := openingBanner date time,
          cerr := "Échec de l'initialisation de l'application.\n",
          calls := [.construct, .initialize_], handlers := [] }) := by
  obtain ⟨s0, s1, hc, hi⟩ := h
  simp [main, tryBlock, hc, hi, Process.call, Process.err, banner_start, endl]

theorem main_of_completes {σ : Type} (app : AetherStreamApp σ) (date time : String)
    (h : Completes app) :
    main app date time =
      (EXIT_SUCCESS,
        { cout := openingBanner date time ++ closingLine, cerr := "",
          calls := [.construct, .initialize_, .run, .shutdown], handlers := [] }) := by
  obtain ⟨s0, s1, s2, s3, hc, hi, hr, hs⟩ := h
  simp [main, tryBlock, hc, hi, hr, hs, Process.call, Process.out, banner_start, endl,
    closingLine, String.append_assoc]

/-- Every behaviour of the application object takes exactly one of the three
kinds of path: `initialize()` returns `false`, all four operations return, or
one of them throws. -/
theorem path_cases {σ : Type} (app : AetherStreamApp σ) :
    InitializeFails app ∨ Completes app ∨ ∃ k t, ThrowsAt app k t := by
  cases hc : app.construct with
  | error t => exact Or.inr (Or.inr ⟨.construct, t, hc⟩)
  | ok s0 =>
    cases hi : app.initialize_ s0 with
    | error t => exact Or.inr (Or.inr ⟨.initialize_, t, s0, hc, hi⟩)
    | ok r =>
      obtain ⟨b, s1⟩ := r
      cases b with
      | false => exact Or.inl ⟨s0, s1, hc, hi⟩
      | true =>
        cases hr : app.run s1 with
        | error t => exact Or.inr (Or.inr ⟨.run, t, s0, s1, hc, hi, hr⟩)
        | ok s2 =>
          cases hs : app.shutdown s2 with
          | error t => exact Or.inr (Or.inr ⟨.shutdown, t, s0, s1, s2, hc, hi, hr, hs⟩)
          | ok s3 => exact Or.inr (Or.inl ⟨s0, s1, s2, s3, hc, hi, hr, hs⟩)

/-- The opening banner ends with an empty line, so the closing banner line is
not its last line. -/
theorem closingLine_not_suffix_openingBanner (date time : String) :
    ¬ closingLine.data <:+ (openingBanner date time).data := by
  intro h
  have hr := List.reverse_prefix.2 h
  simp [openingBanner, closingLine, String.data_append] at hr

/-- A diagnostic made of a text without newline and a final newline is one
line. -/
theorem isOneLine_of_no_newline (a m : String) (ha : '\n' ∉ a.data) (hm : '\n' ∉ m.data) :
    IsOneLine (a ++ m ++ "\n") := by
  constructor
  · simp [String.data_append]
  · simp [String.data_append, List.count_eq_zero.2 ha, List.count_eq_zero.2 hm]

theorem callsThrough_prefix (k : Call) :
    callsThrough k <+: [.construct, .initialize_, .run, .shutdown] := by
  cases k <;> decide

theorem callsThrough_count_le_one (k c : Call) : (callsThrough k).count c ≤ 1 := by
  cases k <;> cases c <;> decide

theorem callsThrough_getLast (k : Call) : (callsThrough k).getLast? = some k := by
  cases k <;> rfl

/-! ## Properties of the lifecycle -/

/-- C1. When the constructor returns and `initialize()` returns `false`, `main`
returns a non-zero exit code and the operations it invoked include neither
`run` nor `shutdown`. -/
theorem initialize_false_skips_run_and_shutdown {σ : Type} (app : AetherStreamApp σ)
    (date time : String) (s0 s1 : σ)
    (hc : app.construct = .ok s0) (hi : app.initialize_ s0 = .ok (false, s1)) :
    (main app date time).1 ≠ 0 ∧
      Call.run ∉ (main app date time).2.calls ∧
      Call.shutdown ∉ (main app date time).2.calls := by
  rw [main_of_initializeFails app date time ⟨s0, s1, hc, hi⟩]
  simp [EXIT_FAILURE]

theorem initialize_false_skips_run_and_shutdown_witness :
    (counting false).construct = .ok 0 ∧
      (counting false).initialize_ 0 = .ok (false, 1) ∧
      (main (counting false) "Jan  1 2025" "12:00:00").1 ≠ 0 ∧
      Call.run ∉ (main (counting false) "Jan  1 2025" "12:00:00").2.calls ∧
      Call.shutdown ∉ (main (counting false) "Jan  1 2025" "12:00:00").2.calls :=
  ⟨rfl, rfl,
    initialize_false_skips_run_and_shutdown (counting false) "Jan  1 2025" "12:00:00" 0 1
      rfl rfl⟩

/-- C2, as stated, fails: with a constructor that returns, an `initialize()`
that returns `true` and a `run()` that throws, `run` is invoked once and
`shutdown` is not invoked at all. -/
theorem shutdown_skipped_when_run_throws :
    (scripted (.ok ()) (.ok true) (.error .other) (.ok ())).construct = .ok () ∧
      (scripted (.ok ()) (.ok true) (.error .other) (.ok ())).initialize_ () = .ok (true, ()) ∧
      (main (scripted (.ok ()) (.ok true) (.error .other) (.ok ())) "Jan  1 2025"
        "12:00:00").2.calls = [.construct, .initialize_, .run] ∧
      ¬ (main (scripted (.ok ()) (.ok true) (.error .other) (.ok ())) "Jan  1 2025"
        "12:00:00").2.calls.count .shutdown = 1 :=
  ⟨rfl, rfl, by decide, by decide⟩

/-- C2, amended. When the constructor returns, `initialize()` returns `true`
and `run()` returns, the operations invoked by `main` are exactly construct,
initialize, run, shutdown in this order: `run` occurs once, `shutdown` occurs
once and after `run`, and no condition on what `run` left behind or on what
`shutdown` does guards the call of `shutdown`. -/
theorem run_then_shutdown_once_each {σ : Type} (app : AetherStreamApp σ)
    (date time : String) (s0 s1 s2 : σ)
    (hc : app.construct = .ok s0) (hi : app.initialize_ s0 = .ok (true, s1))
    (hr : app.run s1 = .ok s2) :
    (main app date time).2.calls = [.construct, .initialize_, .run, .shutdown] ∧
      (main app date time).2.calls.count .run = 1 ∧
      (main app date time).2.calls.count .shutdown = 1 := by
  cases hs : app.shutdown s2 with
  | error t =>
    rw [main_of_throwsAt app date time .shutdown t ⟨s0, s1, s2, hc, hi, hr, hs⟩]
    simp [callsThrough]
  | ok s3 =>
    rw [main_of_completes app date time ⟨s0, s1, s2, s3, hc, hi, hr, hs⟩]
    simp

theorem run_then_shutdown_once_each_witness :
    (counting true).construct = .ok 0 ∧
      (counting true).initialize_ 0 = .ok (true, 1) ∧
      (counting true).run 1 = .ok 2 ∧
      (main (counting true) "Jan  1 2025" "12:00:00").2.calls
        = [.construct, .initialize_, .run, .shutdown] ∧
      (main (counting true) "Jan  1 2025" "12:00:00").2.calls.count .run = 1 ∧
      (main (counting true) "Jan  1 2025" "12:00:00").2.calls.count .shutdown = 1 :=
  ⟨rfl, rfl, rfl,
    run_then_shutdown_once_each (counting true) "Jan  1 2025" "12:00:00" 0 1 2 rfl rfl rfl⟩

/-- C3. `main` returns exit code 0 exactly when the constructor returns,
`initialize()` returns `true`, and `run()` and `shutdown()` both return; in
every other case the exit code is `EXIT_FAILURE`, which is not zero. -/
theorem exit_code_zero_iff_completes {σ : Type} (app : AetherStreamApp σ)
    (date time : String) :
    ((main app date time).1 = 0 ↔
        ∃ s0 s1 s2 s3, app.construct = .ok s0 ∧ app.initialize_ s0 = .ok (true, s1) ∧
          app.run s1 = .ok s2 ∧ app.shutdown s2 = .ok s3) ∧
      ((main app date time).1 ≠ 0 → (main app date time).1 = EXIT_FAILURE) ∧
      EXIT_FAILURE ≠ 0 := by
  have hne : EXIT_FAILURE ≠ 0 := by decide
  refine ⟨?_, ?_, hne⟩
  · constructor
    · intro h0
      rcases path_cases app with hf | hok | ⟨k, t, ht⟩
      · rw [main_of_initializeFails app date time hf] at h0
        exact absurd h0 hne
      · exact hok
      · rw [main_of_throwsAt app date time k t ht] at h0
        exact absurd h0 hne
    · intro hok
      rw [main_of_completes app date time hok]
      rfl
  · intro hnz
    rcases path_cases app with hf | hok | ⟨k, t, ht⟩
    · rw [main_of_initializeFails app date time hf]
    · rw [main_of_completes app date time hok] at hnz
      exact absurd rfl hnz
    · rw [main_of_throwsAt app date time k t ht]

/-- C4. When a `std::exception` with description `m` is thrown by the
constructor, `initialize()`, `run()` or `shutdown()`, `main` returns a non-zero
exit code and the text on `std::cerr` is `"Erreur fatale: "`, then `m`, then a
newline; in particular it contains `m`. -/
theorem std_exception_reported_with_description {σ : Type} (app : AetherStreamApp σ)
    (date time : String) (k : Call) (m : String)
    (h : ThrowsAt app k (.stdException m)) :
    (main app date time).1 ≠ 0 ∧
      (main app date time).2.cerr = "Erreur fatale: " ++ m ++ "\n" ∧
      m.data <:+: (main app date time).2.cerr.data := by
  have hne : EXIT_FAILURE ≠ 0 := by decide
  rw [main_of_throwsAt app date time k _ h]
  refine ⟨hne, rfl, ?_⟩
  simp only [diagnostic, String.data_append]
  exact List.infix_append _ _ _

theorem std_exception_reported_with_description_witness :
    ThrowsAt (scripted (.ok ()) (.ok true) (.error (.stdException "decoder lost")) (.ok ()))
        .run (.stdException "decoder lost") ∧
      (main (scripted (.ok ()) (.ok true) (.error (.stdException "decoder lost")) (.ok ()))
        "Jan  1 2025" "12:00:00").1 ≠ 0 ∧
      (main (scripted (.ok ()) (.ok true) (.error (.stdException "decoder lost")) (.ok ()))
        "Jan  1 2025" "12:00:00").2.cerr = "Erreur fatale: " ++ "decoder lost" ++ "\n" ∧
      "decoder lost".data <:+:
        (main (scripted (.ok ()) (.ok true) (.error (.stdException "decoder lost")) (.ok ()))
          "Jan  1 2025" "12:00:00").2.cerr.data :=
  ⟨⟨(), (), rfl, rfl, rfl⟩,
    std_exception_reported_with_description
      (scripted (.ok ()) (.ok true) (.error (.stdException "decoder lost")) (.ok ()))
      "Jan  1 2025" "12:00:00" .run "decoder lost" ⟨(), (), rfl, rfl, rfl⟩⟩

/-- C5. When a value that is not a `std::exception` is thrown by the
constructor, `initialize()`, `run()` or `shutdown()`, `main` returns a non-zero
exit code and the text on `std::cerr` is the fixed line
`"Erreur fatale inconnue."`: it is not empty, it does not begin with the prefix
`"Erreur fatale: "` of the `std::exception` format, and so it is not of that
format for any description. -/
theorem unknown_throw_reported_generically {σ : Type} (app : AetherStreamApp σ)
    (date time : String) (k : Call) (h : ThrowsAt app k .other) :
    (main app date time).1 ≠ 0 ∧
      (main app date time).2.cerr = "Erreur fatale inconnue.\n" ∧
      (main app date time).2.cerr ≠ "" ∧
      ¬ "Erreur fatale: ".data <+: (main app date time).2.cerr.data ∧
      ∀ m : String, (main app date time).2.cerr ≠ "Erreur fatale: " ++ m ++ "\n" := by
  have hne : EXIT_FAILURE ≠ 0 := by decide
  have hp : ¬ "Erreur fatale: ".data <+: "Erreur fatale inconnue.\n".data := by decide
  have he : "Erreur fatale inconnue.\n" ≠ "" := by decide
  rw [main_of_throwsAt app date time k _ h]
  refine ⟨hne, rfl, he, hp, ?_⟩
  intro m hm
  apply hp
  have hpre : "Erreur fatale: ".data <+: ("Erreur fatale: " ++ m ++ "\n").data := by
    rw [String.append_assoc, String.data_append]
    exact List.prefix_append _ _
  rw [← hm] at hpre
  exact hpre

theorem unknown_throw_reported_generically_witness :
    ThrowsAt (scripted (.error .other) (.ok true) (.ok ()) (.ok ())) .construct .other ∧
      (main (scripted (.error .other) (.ok true) (.ok ()) (.ok ())) "Jan  1 2025"
        "12:00:00").1 ≠ 0 ∧
      (main (scripted (.error .other) (.ok true) (.ok ()) (.ok ())) "Jan  1 2025"
        "12:00:00").2.cerr = "Erreur fatale inconnue.\n" :=
  ⟨rfl,
    (unknown_throw_reported_generically (scripted (.error .other) (.ok true) (.ok ()) (.ok ()))
      "Jan  1 2025" "12:00:00" .construct rfl).1,
    (unknown_throw_reported_generically (scripted (.error .other) (.ok true) (.ok ()) (.ok ()))
      "Jan  1 2025" "12:00:00" .construct rfl).2.1⟩

/-- C6. On the success path (the constructor returns, `initialize()` returns
`true`, `run()` and `shutdown()` return) the text on `std::cout` is the title
line, the version line, the build timestamp line, an empty line and then the
closing banner line, which is the last line written; the exit code is zero. -/
theorem success_prints_banner_then_closing {σ : Type} (app : AetherStreamApp σ)
    (date time : String) (s0 s1 s2 s3 : σ)
    (hc : app.construct = .ok s0) (hi : app.initialize_ s0 = .ok (true, s1))
    (hr : app.run s1 = .ok s2) (hs : app.shutdown s2 = .ok s3) :
    (main app date time).2.cout =
        "=== AetherStream - Application de Streaming Desktop ===\nVersion: 1.0.0\nCompilé le: "
          ++ date ++ " " ++ time ++ "\n\n"
          ++ "=== AetherStream - Fermeture de l'application ===\n" ∧
      "=== AetherStream - Fermeture de l'application ===\n".data
        <:+ (main app date time).2.cout.data ∧
      (main app date time).1 = 0 := by
  rw [main_of_completes app date time ⟨s0, s1, s2, s3, hc, hi, hr, hs⟩]
  refine ⟨rfl, ?_, rfl⟩
  simp only [String.data_append]
  exact List.suffix_append _ _

theorem success_prints_banner_then_closing_witness :
    (counting true).construct = .ok 0 ∧
      (counting true).initialize_ 0 = .ok (true, 1) ∧
      (counting true).run 1 = .ok 2 ∧
      (counting true).shutdown 2 = .ok 3 ∧
      (main (counting true) "Jan  1 2025" "12:00:00").2.cout =
        "=== AetherStream - Application de Streaming Desktop ===\nVersion: 1.0.0\nCompilé le: "
          ++ "Jan  1 2025" ++ " " ++ "12:00:00" ++ "\n\n"
          ++ "=== AetherStream - Fermeture de l'application ===\n" ∧
      (main (counting true) "Jan  1 2025" "12:00:00").1 = 0 :=
  ⟨rfl, rfl, rfl, rfl,
    (success_prints_banner_then_closing (counting true) "Jan  1 2025" "12:00:00" 0 1 2 3
      rfl rfl rfl rfl).1,
    (success_prints_banner_then_closing (counting true) "Jan  1 2025" "12:00:00" 0 1 2 3
      rfl rfl rfl rfl).2.2⟩

/-- C7, as stated, fails: a `std::exception` whose description holds a newline
is thrown by the constructor, and the text on `std::cerr` is two lines. -/
theorem description_with_newline_gives_two_lines :
    ThrowsAt (scripted (.error (.stdException "disk full\nretry later")) (.ok true) (.ok ())
        (.ok ())) .construct (.stdException "disk full\nretry later") ∧
      (main (scripted (.error (.stdException "disk full\nretry later")) (.ok true) (.ok ())
        (.ok ())) "Jan  1 2025" "12:00:00").2.cerr
          = "Erreur fatale: disk full\nretry later\n" ∧
      ¬ IsOneLine (main (scripted (.error (.stdException "disk full\nretry later")) (.ok true)
        (.ok ()) (.ok ())) "Jan  1 2025" "12:00:00").2.cerr :=
  ⟨rfl, by decide, by decide⟩

/-- C7, amended. On every failing execution of `main` in which `initialize()`
returns `false`, or a `std::exception` whose description holds no newline is
thrown, or a value that is not a `std::exception` is thrown, the text on
`std::cerr` is exactly one line and the exit code is not zero. -/
theorem failure_prints_one_line {σ : Type} (app : AetherStreamApp σ) (date time : String)
    (h : InitializeFails app ∨
      ∃ k t, ThrowsAt app k t ∧ ∀ m, t = .stdException m → '\n' ∉ m.data) :
    IsOneLine (main app date time).2.cerr ∧ (main app date time).1 ≠ 0 := by
  have hne : EXIT_FAILURE ≠ 0 := by decide
  rcases h with hf | ⟨k, t, ht, hm⟩
  · rw [main_of_initializeFails app date time hf]
    exact ⟨(by decide : IsOneLine "Échec de l'initialisation de l'application.\n"), hne⟩
  · rw [main_of_throwsAt app date time k t ht]
    refine ⟨?_, hne⟩
    cases t with
    | stdException m =>
      exact isOneLine_of_no_newline "Erreur fatale: " m (by decide) (hm m rfl)
    | other => exact (by decide : IsOneLine "Erreur fatale inconnue.\n")

theorem failure_prints_one_line_witness :
    (InitializeFails (scripted (.ok ()) (.error (.stdException "no audio device")) (.ok ())
        (.ok ())) ∨
      ∃ k t, ThrowsAt (scripted (.ok ()) (.error (.stdException "no audio device")) (.ok ())
        (.ok ())) k t ∧ ∀ m, t = .stdException m → '\n' ∉ m.data) ∧
      IsOneLine (main (scripted (.ok ()) (.error (.stdException "no audio device")) (.ok ())
        (.ok ())) "Jan  1 2025" "12:00:00").2.cerr ∧
      (main (scripted (.ok ()) (.error (.stdException "no audio device")) (.ok ())
        (.ok ())) "Jan  1 2025" "12:00:00").1 ≠ 0 :=
  have hex : ∃ k t, ThrowsAt (scripted (.ok ()) (.error (.stdException "no audio device"))
      (.ok ()) (.ok ())) k t ∧ ∀ m, t = .stdException m → '\n' ∉ m.data :=
    ⟨.initialize_, .stdException "no audio device", ⟨(), rfl, rfl⟩, fun m hm => by
      cases hm
      decide⟩
  ⟨Or.inr hex,
    failure_prints_one_line (scripted (.ok ()) (.error (.stdException "no audio device"))
      (.ok ()) (.ok ())) "Jan  1 2025" "12:00:00" (Or.inr hex)⟩

/-- C8. For every behaviour of the application object, `main` invokes
`initialize`, `run` and `shutdown` at most once each, and does not invoke `run`
when `initialize()` returned `false` or threw. -/
theorem each_operation_at_most_once {σ : Type} (app : AetherStreamApp σ)
    (date time : String) :
    (main app date time).2.calls.count .initialize_ ≤ 1 ∧
      (main app date time).2.calls.count .run ≤ 1 ∧
      (main app date time).2.calls.count .shutdown ≤ 1 ∧
      ((∃ s0, app.construct = .ok s0 ∧
          ((∃ s1, app.initialize_ s0 = .ok (false, s1)) ∨ ∃ t, app.initialize_ s0 = .error t)) →
        Call.run ∉ (main app date time).2.calls) := by
  have hcount : ∀ c : Call, (main app date time).2.calls.count c ≤ 1 := by
    intro c
    rcases path_cases app with hf | hok | ⟨k, t, ht⟩
    · rw [main_of_initializeFails app date time hf]
      exact callsThrough_count_le_one .initialize_ c
    · rw [main_of_completes app date time hok]
      exact callsThrough_count_le_one .shutdown c
    · rw [main_of_throwsAt app date time k t ht]
      exact callsThrough_count_le_one k c
  refine ⟨hcount _, hcount _, hcount _, ?_⟩
  rintro ⟨s0, hc, ⟨s1, hi⟩ | ⟨t, hi⟩⟩
  · rw [main_of_initializeFails app date time ⟨s0, s1, hc, hi⟩]
    exact (by decide : Call.run ∉ [Call.construct, Call.initialize_])
  · rw [main_of_throwsAt app date time .initialize_ t ⟨s0, hc, hi⟩]
    exact (by decide : Call.run ∉ [Call.construct, Call.initialize_])

/-- C9. Once the constructor, `initialize()`, `run()` or `shutdown()` throws,
`main` invokes no further operation: the operations invoked are an initial
part of construct, initialize, run, shutdown that ends with the throwing one
(so a throw in the constructor or in `initialize()` leaves `run` and `shutdown`
uninvoked, and a throw in `run()` leaves `shutdown` uninvoked). Exactly one
`catch` clause runs, and `main` goes to the failure exit: it returns
`EXIT_FAILURE`, `std::cout` holds the opening banner only and `std::cerr` the
line of that `catch` clause only. -/
theorem throw_goes_straight_to_failure_exit {σ : Type} (app : AetherStreamApp σ)
    (date time : String) (k : Call) (t : Thrown) (h : ThrowsAt app k t) :
    (main app date time).2.calls <+: [.construct, .initialize_, .run, .shutdown] ∧
      (main app date time).2.calls.getLast? = some k ∧
      (k = .construct ∨ k = .initialize_ →
        Call.run ∉ (main app date time).2.calls ∧
          Call.shutdown ∉ (main app date time).2.calls) ∧
      (k = .run → Call.shutdown ∉ (main app date time).2.calls) ∧
      (main app date time).2.handlers.length = 1 ∧
      (main app date time).1 = EXIT_FAILURE ∧
      (main app date time).2.cout =
        "=== AetherStream - Application de Streaming Desktop ===\nVersion: 1.0.0\nCompilé le: "
          ++ date ++ " " ++ time ++ "\n\n" ∧
      ((main app date time).2.cerr = "Erreur fatale inconnue.\n" ∨
        ∃ m, (main app date time).2.cerr = "Erreur fatale: " ++ m ++ "\n") := by
  rw [main_of_throwsAt app date time k t h]
  refine ⟨?_, ?_, ?_, ?_, rfl, rfl, rfl, ?_⟩
  · exact callsThrough_prefix k
  · exact callsThrough_getLast k
  · rintro (hk | hk) <;> subst hk
    · exact (by decide :
        Call.run ∉ [Call.construct] ∧ Call.shutdown ∉ [Call.construct])
    · exact (by decide :
        Call.run ∉ [Call.construct, Call.initialize_] ∧
          Call.shutdown ∉ [Call.construct, Call.initialize_])
  · intro hk
    subst hk
    exact (by decide : Call.shutdown ∉ [Call.construct, Call.initialize_, Call.run])
  · cases t with
    | stdException m => exact Or.inr ⟨m, rfl⟩
    | other => exact Or.inl rfl

theorem throw_goes_straight_to_failure_exit_witness :
    ThrowsAt (scripted (.ok ()) (.ok true) (.error .other) (.ok ())) .run .other ∧
      (main (scripted (.ok ()) (.ok true) (.error .other) (.ok ())) "Jan  1 2025"
        "12:00:00").2.calls.getLast? = some .run ∧
      (main (scripted (.ok ()) (.ok true) (.error .other) (.ok ())) "Jan  1 2025"
        "12:00:00").2.handlers.length = 1 ∧
      (main (scripted (.ok ()) (.ok true) (.error .other) (.ok ())) "Jan  1 2025"
        "12:00:00").1 = EXIT_FAILURE :=
  ⟨⟨(), (), rfl, rfl, rfl⟩,
    (throw_goes_straight_to_failure_exit (scripted (.ok ()) (.ok true) (.error .other) (.ok ()))
      "Jan  1 2025" "12:00:00" .run .other ⟨(), (), rfl, rfl, rfl⟩).2.1,
    (throw_goes_straight_to_failure_exit (scripted (.ok ()) (.ok true) (.error .other) (.ok ()))
      "Jan  1 2025" "12:00:00" .run .other ⟨(), (), rfl, rfl, rfl⟩).2.2.2.2.1,
    (throw_goes_straight_to_failure_exit (scripted (.ok ()) (.ok true) (.error .other) (.ok ()))
      "Jan  1 2025" "12:00:00" .run .other ⟨(), (), rfl, rfl, rfl⟩).2.2.2.2.2.1⟩

/-- C10. For every behaviour of the application object, the closing banner
line is the end of the text on `std::cout` exactly when `main` returns exit
code 0; on every failing execution `std::cout` holds the opening banner (the
three banner lines and one empty line) and nothing else; and on the success
path nothing is written to `std::cerr`. -/
theorem closing_line_iff_exit_zero {σ : Type} (app : AetherStreamApp σ)
    (date time : String) :
    ("=== AetherStream - Fermeture de l'application ===\n".data
          <:+ (main app date time).2.cout.data ↔
        (main app date time).1 = 0) ∧
      ((main app date time).1 ≠ 0 →
        (main app date time).2.cout =
          "=== AetherStream - Application de Streaming Desktop ===\nVersion: 1.0.0\nCompilé le: "
            ++ date ++ " " ++ time ++ "\n\n") ∧
      ((main app date time).1 = 0 → (main app date time).2.cerr = "") := by
  have hne : EXIT_FAILURE ≠ 0 := by decide
  have hns := closingLine_not_suffix_openingBanner date time
  have hsuf : closingLine.data <:+ (openingBanner date time ++ closingLine).data := by
    rw [String.data_append]
    exact List.suffix_append _ _
  rcases path_cases app with hf | hok | ⟨k, t, ht⟩
  · rw [main_of_initializeFails app date time hf]
    exact ⟨⟨fun hs => absurd hs hns, fun h0 => absurd h0 hne⟩, fun _ => rfl,
      fun h0 => absurd h0 hne⟩
  · rw [main_of_completes app date time hok]
    exact ⟨⟨fun _ => rfl, fun _ => hsuf⟩, fun h0 => absurd rfl h0, fun _ => rfl⟩
  · rw [main_of_throwsAt app date time k t ht]
    exact ⟨⟨fun hs => absurd hs hns, fun h0 => absurd h0 hne⟩, fun _ => rfl,
      fun h0 => absurd h0 hne⟩

end AetherStream
